import Mathlib

/-!
Shallow embedding of drivers/staging/android/efibc.c.

Narrow (byte) strings are `List Nat`: the bytes of the underlying C array,
with the end of the list playing the role of the final terminating NUL.
An element 0 inside the list is an embedded NUL byte.  Wide
(efi_char16_t) buffers are `List Nat` of code units.  `size_t`
arithmetic is carried out modulo 2^64 where the C code can wrap.
-/

namespace Efibc

/-- Modulus of `size_t` arithmetic (64-bit platform). -/
def SIZE_MOD : Nat := 2 ^ 64

/-- NOTIFY_DONE from include/linux/notifier.h: event not handled. -/
def NOTIFY_DONE : Nat := 0

/-- NOTIFY_OK from include/linux/notifier.h: event handled. -/
def NOTIFY_OK : Nat := 1

/-- SYS_RESTART (= SYS_DOWN = 1) from include/linux/reboot.h. -/
def SYS_RESTART : Nat := 1

/-- EFI_SUCCESS status code. -/
def EFI_SUCCESS : Nat := 0

/-- EFI_NOT_FOUND = 14 with the high bit of a 64-bit long set. -/
def EFI_NOT_FOUND : Nat := 14 + 2 ^ 63

/-- EFI variable attribute: non-volatile. -/
def EFI_VARIABLE_NON_VOLATILE : Nat := 1

/-- EFI variable attribute: boot-service accessible. -/
def EFI_VARIABLE_BOOTSERVICE_ACCESS : Nat := 2

/-- EFI variable attribute: runtime accessible. -/
def EFI_VARIABLE_RUNTIME_ACCESS : Nat := 4

/-- A 128-bit EFI GUID, as in EFI_GUID(a, b, c, d0..d7). -/
structure EfiGuid where
  a : Nat
  b : Nat
  c : Nat
  d : List Nat
deriving DecidableEq, Repr

/-- LOADER_GUID from efibc.c. -/
def LOADER_GUID : EfiGuid :=
  ⟨0x4a67b082, 0x0a4c, 0x41cf, [0xb6, 0xc7, 0x44, 0x0b, 0x29, 0xbb, 0x8c, 0x4f]⟩

/-- The bytes of the fixed variable name "LoaderEntryOneShot". -/
def LOADER_ENTRY_ONE_SHOT : List Nat :=
  (String.toList "LoaderEntryOneShot").map Char.toNat

/-- C strlen on the byte-array model: index of the first NUL byte
(the end of the list acts as the array's final terminator). -/
def strlen : List Nat → Nat
  | [] => 0
  | b :: t => if b = 0 then 0 else strlen t + 1

/-- The loop bound `(dest_len / sizeof(*dest)) - 1` of efichar_from_char,
computed in `size_t`: unsigned subtraction wraps modulo 2^64, so a
`dest_len` below one unit yields 2^64 - 1. -/
def efichar_bound (dest_len : Nat) : Nat :=
  (dest_len / 2 + (SIZE_MOD - 1)) % SIZE_MOD

/-- The copy loop of efichar_from_char together with the final
`dest[i] = 0`: returns the units actually stored, terminator included.
`r` is the number of units the bound still allows; the loop tests the
source byte before the bound, exactly as `src[i] && i < bound` does. -/
def efichar_go : List Nat → Nat → List Nat
  | [], _ => [0]
  | b :: t, r =>
    if b = 0 then [0]
    else
      match r with
      | 0 => [0]
      | r1 + 1 => b :: efichar_go t r1

/-- efichar_from_char: returns the written prefix of the destination
(terminator included) and the C return value `i` (units copied,
terminator excluded). -/
def efichar_from_char (src : List Nat) (dest_len : Nat) : List Nat × Nat :=
  let w := efichar_go src (efichar_bound dest_len)
  (w, w.length - 1)

/-- efi_char16_strlen: number of units before the first wide NUL. -/
def efi_char16_strlen : List Nat → Nat
  | [] => 0
  | u :: t => if u = 0 then 0 else efi_char16_strlen t + 1

/-- Reading a wide buffer back as a narrow string: the units before the
first terminator (each unit is a widened byte, so this is the decoder). -/
def efi_char16_decode (units : List Nat) : List Nat :=
  units.take (efi_char16_strlen units)

/-- efi_char16_bufsz: `(1 + strlen str) * sizeof(efi_char16_t)` in size_t. -/
def efi_char16_bufsz (s : List Nat) : Nat :=
  ((1 + strlen s) * 2) % SIZE_MOD

/-- A kzalloc-ed buffer of `blen` bytes (`blen / 2` zero units) after the
prefix `w` has been written into it. -/
def kzbuf (blen : Nat) (w : List Nat) : List Nat :=
  w ++ List.replicate (blen / 2 - w.length) 0

/-- One recorded invocation of efi.set_variable. -/
structure SetVarCall where
  name : List Nat
  guid : EfiGuid
  attributes : Nat
  dataSize : Nat
  data : List Nat
deriving DecidableEq, Repr

/-- The two buffers the notifier may allocate. -/
inductive Buf
  | name
  | cmd
deriving DecidableEq, Repr

/-- Environment of one notifier call: whether each kzalloc succeeds and
the status efi.set_variable would return. -/
structure Env where
  nameAllocOk : Bool
  cmdAllocOk : Bool
  setVarStatus : Nat
deriving DecidableEq, Repr

/-- Observable outcome of one notifier call: return value, successful
allocations in order, number of kzalloc calls, kfree calls in order,
how many encode length checks failed, and the set_variable calls made. -/
structure NotifierResult where
  ret : Nat
  allocs : List Buf
  allocAttempts : Nat
  frees : List Buf
  encodeFailures : Nat
  setVarCalls : List SetVarCall
deriving DecidableEq, Repr

/-- efibc_reboot_notifier_call, translated goto-for-goto: each early
exit records exactly the kfree calls its label chain (out3/out2/out1)
performs. -/
def efibc_reboot_notifier_call (what : Nat) (data : Option (List Nat)) (env : Env) :
    NotifierResult :=
  let name_blen := efi_char16_bufsz LOADER_ENTRY_ONE_SHOT
  if what ≠ SYS_RESTART then
    ⟨NOTIFY_DONE, [], 0, [], 0, []⟩
  else
    match data with
    | none => ⟨NOTIFY_DONE, [], 0, [], 0, []⟩
    | some cmd =>
      let cmd_blen := efi_char16_bufsz cmd
      if !env.nameAllocOk then
        ⟨NOTIFY_DONE, [], 1, [], 0, []⟩
      else if !env.cmdAllocOk then
        ⟨NOTIFY_DONE, [Buf.name], 2, [Buf.name], 0, []⟩
      else if (efichar_from_char LOADER_ENTRY_ONE_SHOT name_blen).2 ≠
          strlen LOADER_ENTRY_ONE_SHOT then
        ⟨NOTIFY_DONE, [Buf.name, Buf.cmd], 2, [Buf.cmd, Buf.name], 1, []⟩
      else if (efichar_from_char cmd cmd_blen).2 ≠ strlen cmd then
        ⟨NOTIFY_DONE, [Buf.name, Buf.cmd], 2, [Buf.cmd, Buf.name], 1, []⟩
      else
        let nameBuf := kzbuf name_blen (efichar_from_char LOADER_ENTRY_ONE_SHOT name_blen).1
        let cmdBuf := kzbuf cmd_blen (efichar_from_char cmd cmd_blen).1
        let call : SetVarCall :=
          ⟨nameBuf, LOADER_GUID,
            Nat.lor (Nat.lor EFI_VARIABLE_NON_VOLATILE EFI_VARIABLE_BOOTSERVICE_ACCESS)
              EFI_VARIABLE_RUNTIME_ACCESS,
            cmd_blen, cmdBuf⟩
        if env.setVarStatus ≠ EFI_SUCCESS then
          ⟨NOTIFY_DONE, [Buf.name, Buf.cmd], 2, [Buf.cmd, Buf.name], 0, [call]⟩
        else
          ⟨NOTIFY_OK, [Buf.name, Buf.cmd], 2, [Buf.cmd, Buf.name], 0, [call]⟩

/-- Outcome of efibc_init: return value and whether the reboot notifier
got registered. -/
structure InitResult where
  ret : Int
  registered : Bool
deriving DecidableEq, Repr

/-- efibc_init: `registerRet` is what register_reboot_notifier would
return (nonzero on failure); it is consulted only when EFI runtime
services are enabled. -/
def efibc_init (efiRuntimeEnabled : Bool) (registerRet : Int) : InitResult :=
  if !efiRuntimeEnabled then ⟨0, false⟩
  else if registerRet ≠ 0 then ⟨-1, false⟩
  else ⟨0, true⟩

end Efibc

namespace Efibc

/-! ### Helper lemmas about the encoder -/

theorem strlen_le_length (s : List Nat) : strlen s ≤ s.length := by
  induction s with
  | nil => simp [strlen]
  | cons x t ih =>
    by_cases hx : x = 0
    · simp [strlen, hx]
    · simp only [strlen, hx, if_false, List.length_cons]
      omega

theorem efichar_go_eq (src : List Nat) (b : Nat) :
    efichar_go src b = src.take (min (strlen src) b) ++ [0] := by
  induction src generalizing b with
  | nil => simp [efichar_go, strlen]
  | cons x t ih =>
    by_cases hx : x = 0
    · simp [efichar_go, strlen, hx]
    · cases b with
      | zero => simp [efichar_go, strlen, hx]
      | succ b1 =>
        simp only [efichar_go, strlen, hx, if_false, ih, Nat.succ_min_succ,
          List.take_succ_cons, List.cons_append]

theorem efichar_go_length (src : List Nat) (b : Nat) :
    (efichar_go src b).length = min (strlen src) b + 1 := by
  rw [efichar_go_eq]
  have h1 : min (strlen src) b ≤ src.length :=
    le_trans (Nat.min_le_left _ _) (strlen_le_length src)
  simp [List.length_take]
  omega

theorem efichar_go_term (src : List Nat) (b : Nat) :
    (efichar_go src b).get? ((efichar_go src b).length - 1) = some 0 := by
  rw [efichar_go_eq]
  have h : (src.take (min (strlen src) b) ++ [0]).length - 1 =
      (src.take (min (strlen src) b)).length := by
    simp
  rw [h]
  exact List.get?_concat_length _ _

theorem efichar_bound_eq (c : Nat) (h2 : 2 ≤ c) (h64 : c < SIZE_MOD) :
    efichar_bound c = c / 2 - 1 := by
  have hpow : (2 : Nat) ^ 64 = 18446744073709551616 := by norm_num
  simp only [efichar_bound, SIZE_MOD, hpow] at h64 ⊢
  omega

theorem efichar_bound_wrap (c : Nat) (hc : c < 2) :
    efichar_bound c = SIZE_MOD - 1 := by
  have h0 : c / 2 = 0 := by omega
  have hpow : SIZE_MOD = 18446744073709551616 := by norm_num [SIZE_MOD]
  simp only [efichar_bound, h0, hpow, Nat.zero_add]

theorem efi_char16_bufsz_eq (s : List Nat) (h : strlen s + 1 < 2 ^ 63) :
    efi_char16_bufsz s = (1 + strlen s) * 2 := by
  have hpow : (2 : Nat) ^ 63 = 9223372036854775808 := by norm_num
  have hpow2 : (2 : Nat) ^ 64 = 18446744073709551616 := by norm_num
  simp only [efi_char16_bufsz, SIZE_MOD, hpow2]
  rw [hpow] at h
  apply Nat.mod_eq_of_lt
  omega

theorem encode_exact (s : List Nat) (h : strlen s + 1 < 2 ^ 63) :
    efichar_from_char s (efi_char16_bufsz s) = (s.take (strlen s) ++ [0], strlen s) := by
  have hsz := efi_char16_bufsz_eq s h
  have hbound : efichar_bound (efi_char16_bufsz s) = strlen s := by
    have h64 : (1 + strlen s) * 2 < SIZE_MOD := by
      have hpow : (2 : Nat) ^ 63 = 9223372036854775808 := by norm_num
      have hpow2 : SIZE_MOD = 18446744073709551616 := by norm_num [SIZE_MOD]
      rw [hpow] at h
      rw [hpow2]
      omega
    rw [hsz, efichar_bound_eq _ (by omega) h64]
    omega
  have hgo : efichar_go s (strlen s) = s.take (strlen s) ++ [0] := by
    rw [efichar_go_eq, min_self]
  have hlen : (efichar_go s (strlen s)).length = strlen s + 1 := by
    rw [efichar_go_length, min_self]
  have hl2 : (List.take (strlen s) s ++ [0]).length = strlen s + 1 := by
    rw [← hgo]
    exact hlen
  simp only [efichar_from_char, hbound, hgo, hl2, Nat.add_sub_cancel]


/-! ### Helper lemmas about the notifier branches -/

theorem nameCheckOk :
    (efichar_from_char LOADER_ENTRY_ONE_SHOT (efi_char16_bufsz LOADER_ENTRY_ONE_SHOT)).2 =
      strlen LOADER_ENTRY_ONE_SHOT := by decide

/-- The set_variable call the notifier issues for command `cmd`. -/
def expectedCall (cmd : List Nat) : SetVarCall :=
  ⟨kzbuf (efi_char16_bufsz LOADER_ENTRY_ONE_SHOT)
      (efichar_from_char LOADER_ENTRY_ONE_SHOT (efi_char16_bufsz LOADER_ENTRY_ONE_SHOT)).1,
    LOADER_GUID,
    Nat.lor (Nat.lor EFI_VARIABLE_NON_VOLATILE EFI_VARIABLE_BOOTSERVICE_ACCESS)
      EFI_VARIABLE_RUNTIME_ACCESS,
    efi_char16_bufsz cmd,
    kzbuf (efi_char16_bufsz cmd) (efichar_from_char cmd (efi_char16_bufsz cmd)).1⟩

theorem notifier_eq_filter (what : Nat) (data : Option (List Nat)) (env : Env)
    (h : what ≠ SYS_RESTART ∨ data = none) :
    efibc_reboot_notifier_call what data env = ⟨NOTIFY_DONE, [], 0, [], 0, []⟩ := by
  rcases h with h | h
  · simp [efibc_reboot_notifier_call, h]
  · subst h
    by_cases hw : what = SYS_RESTART <;> simp [efibc_reboot_notifier_call, hw]

theorem notifier_eq_nameAllocFail (what : Nat) (cmd : List Nat) (env : Env)
    (hw : what = SYS_RESTART) (hn : env.nameAllocOk = false) :
    efibc_reboot_notifier_call what (some cmd) env = ⟨NOTIFY_DONE, [], 1, [], 0, []⟩ := by
  subst hw
  simp [efibc_reboot_notifier_call, hn]

theorem notifier_eq_cmdAllocFail (what : Nat) (cmd : List Nat) (env : Env)
    (hw : what = SYS_RESTART) (hn : env.nameAllocOk = true) (hc : env.cmdAllocOk = false) :
    efibc_reboot_notifier_call what (some cmd) env =
      ⟨NOTIFY_DONE, [Buf.name], 2, [Buf.name], 0, []⟩ := by
  subst hw
  simp [efibc_reboot_notifier_call, hn, hc]

theorem notifier_eq_cmdCheckFail (what : Nat) (cmd : List Nat) (env : Env)
    (hw : what = SYS_RESTART) (hn : env.nameAllocOk = true) (hc : env.cmdAllocOk = true)
    (hk : (efichar_from_char cmd (efi_char16_bufsz cmd)).2 ≠ strlen cmd) :
    efibc_reboot_notifier_call what (some cmd) env =
      ⟨NOTIFY_DONE, [Buf.name, Buf.cmd], 2, [Buf.cmd, Buf.name], 1, []⟩ := by
  subst hw
  simp [efibc_reboot_notifier_call, hn, hc, nameCheckOk, hk]

theorem notifier_eq_setVarFail (what : Nat) (cmd : List Nat) (env : Env)
    (hw : what = SYS_RESTART) (hn : env.nameAllocOk = true) (hc : env.cmdAllocOk = true)
    (hk : (efichar_from_char cmd (efi_char16_bufsz cmd)).2 = strlen cmd)
    (hs : env.setVarStatus ≠ EFI_SUCCESS) :
    efibc_reboot_notifier_call what (some cmd) env =
      ⟨NOTIFY_DONE, [Buf.name, Buf.cmd], 2, [Buf.cmd, Buf.name], 0, [expectedCall cmd]⟩ := by
  subst hw
  simp [efibc_reboot_notifier_call, hn, hc, nameCheckOk, hk, hs, expectedCall]

theorem notifier_eq_success (what : Nat) (cmd : List Nat) (env : Env)
    (hw : what = SYS_RESTART) (hn : env.nameAllocOk = true) (hc : env.cmdAllocOk = true)
    (hk : (efichar_from_char cmd (efi_char16_bufsz cmd)).2 = strlen cmd)
    (hs : env.setVarStatus = EFI_SUCCESS) :
    efibc_reboot_notifier_call what (some cmd) env =
      ⟨NOTIFY_OK, [Buf.name, Buf.cmd], 2, [Buf.cmd, Buf.name], 0, [expectedCall cmd]⟩ := by
  subst hw
  simp [efibc_reboot_notifier_call, hn, hc, nameCheckOk, hk, hs, expectedCall]


theorem notifier_encodeFailures_zero (what : Nat) (cmd : List Nat) (env : Env)
    (hk : (efichar_from_char cmd (efi_char16_bufsz cmd)).2 = strlen cmd) :
    (efibc_reboot_notifier_call what (some cmd) env).encodeFailures = 0 := by
  by_cases hw : what = SYS_RESTART
  · cases hn : env.nameAllocOk
    · rw [notifier_eq_nameAllocFail what cmd env hw hn]
    · cases hc : env.cmdAllocOk
      · rw [notifier_eq_cmdAllocFail what cmd env hw hn hc]
      · by_cases hs : env.setVarStatus = EFI_SUCCESS
        · rw [notifier_eq_success what cmd env hw hn hc hk hs]
        · rw [notifier_eq_setVarFail what cmd env hw hn hc hk hs]
  · rw [notifier_eq_filter what (some cmd) env (Or.inl hw)]

theorem strlen_succ_small (s : List Nat) (h : s.length < 2 ^ 62) :
    strlen s + 1 < 2 ^ 63 := by
  have h1 := strlen_le_length s
  have h2 : (2 : Nat) ^ 62 = 4611686018427387904 := by norm_num
  have h3 : (2 : Nat) ^ 63 = 9223372036854775808 := by norm_num
  rw [h2] at h
  rw [h3]
  omega

/-! ### The claims -/

/-- Claim C1: for every narrow string `s`, efi_char16_bufsz returns
`(strlen s + 1) * sizeof(efi_char16_t)`, and encoding `s` into a buffer
of exactly that size returns `strlen s` units written with a
terminating wide NUL at index `strlen s`; in particular the empty
string yields 0 units and the first unit is the terminator. -/
theorem C1_roundtrip_sizing (s : List Nat) (h : s.length < 2 ^ 62) :
    efi_char16_bufsz s = (strlen s + 1) * 2 ∧
    (efichar_from_char s (efi_char16_bufsz s)).2 = strlen s ∧
    (efichar_from_char s (efi_char16_bufsz s)).1.get? (strlen s) = some 0 := by
  have hb := strlen_succ_small s h
  have he := encode_exact s hb
  refine ⟨?_, ?_, ?_⟩
  · rw [efi_char16_bufsz_eq s hb]
    ring
  · rw [he]
  · rw [he]
    have hl : (s.take (strlen s)).length = strlen s := by
      rw [List.length_take]
      exact Nat.min_eq_left (strlen_le_length s)
    calc (s.take (strlen s) ++ [0], strlen s).1.get? (strlen s)
        = (s.take (strlen s) ++ [0]).get? (s.take (strlen s)).length := by rw [hl]
      _ = some 0 := List.get?_concat_length _ _

/-- Witness for C1 at the empty string. -/
theorem C1_roundtrip_sizing_witness :
    ([] : List Nat).length < 2 ^ 62 ∧
    (efi_char16_bufsz [] = (strlen ([] : List Nat) + 1) * 2 ∧
      (efichar_from_char [] (efi_char16_bufsz [])).2 = strlen ([] : List Nat) ∧
      (efichar_from_char [] (efi_char16_bufsz [])).1.get? (strlen ([] : List Nat)) = some 0) :=
  ⟨by decide, C1_roundtrip_sizing [] (by decide)⟩

/-- Claim C4: for every source string and every capacity of at least
one wide unit, the encoder writes at most `c` bytes, copies exactly
`min (strlen s) (c / 2 - 1)` units, and puts the terminator within the
available units. -/
theorem C4_truncation_safety (s : List Nat) (c : Nat) (h2 : 2 ≤ c) (h64 : c < SIZE_MOD) :
    2 * (efichar_from_char s c).1.length ≤ c ∧
    (efichar_from_char s c).2 = min (strlen s) (c / 2 - 1) ∧
    (efichar_from_char s c).1.get? ((efichar_from_char s c).2) = some 0 := by
  have hb := efichar_bound_eq c h2 h64
  have hlen : (efichar_go s (efichar_bound c)).length = min (strlen s) (c / 2 - 1) + 1 := by
    rw [efichar_go_length, hb]
  refine ⟨?_, ?_, ?_⟩
  · show 2 * (efichar_go s (efichar_bound c)).length ≤ c
    have h1 : 1 ≤ c / 2 := by omega
    have h3 : min (strlen s) (c / 2 - 1) ≤ c / 2 - 1 := Nat.min_le_right _ _
    omega
  · show (efichar_go s (efichar_bound c)).length - 1 = min (strlen s) (c / 2 - 1)
    omega
  · exact efichar_go_term s (efichar_bound c)

/-- Witness for C4 at `s = [65, 66]`, `c = 4`: one unit copied, four
bytes written, terminator at index 1. -/
theorem C4_truncation_safety_witness :
    (2 ≤ 4 ∧ 4 < SIZE_MOD) ∧
    (2 * (efichar_from_char [65, 66] 4).1.length ≤ 4 ∧
      (efichar_from_char [65, 66] 4).2 = min (strlen [65, 66]) (4 / 2 - 1) ∧
      (efichar_from_char [65, 66] 4).1.get? ((efichar_from_char [65, 66] 4).2) = some 0) :=
  ⟨⟨by decide, by decide⟩, C4_truncation_safety [65, 66] 4 (by decide) (by decide)⟩

/-- Claim C10: for a capacity below one wide unit the size_t expression
`dest_len / 2 - 1` wraps to 2^64 - 1, the capacity never limits the
loop, the whole source up to its NUL plus a terminator is written, and
the bytes written exceed the capacity. -/
theorem C10_subunit_capacity_wrap (s : List Nat) (c : Nat) (hc : c < 2)
    (hs : strlen s < SIZE_MOD - 1) :
    efichar_bound c = SIZE_MOD - 1 ∧
    (efichar_from_char s c).2 = strlen s ∧
    (efichar_from_char s c).1 = s.take (strlen s) ++ [0] ∧
    c < 2 * (efichar_from_char s c).1.length := by
  have hb := efichar_bound_wrap c hc
  have hmin : min (strlen s) (SIZE_MOD - 1) = strlen s := Nat.min_eq_left (le_of_lt hs)
  have hgo : efichar_go s (efichar_bound c) = s.take (strlen s) ++ [0] := by
    rw [hb, efichar_go_eq, hmin]
  have hlen : (efichar_go s (efichar_bound c)).length = strlen s + 1 := by
    rw [hb, efichar_go_length, hmin]
  refine ⟨hb, ?_, hgo, ?_⟩
  · show (efichar_go s (efichar_bound c)).length - 1 = strlen s
    omega
  · show c < 2 * (efichar_go s (efichar_bound c)).length
    omega

/-- Witness for C10 at capacity 0 and source `[65]`: both bytes of the
source unit plus the terminator are written despite the zero capacity. -/
theorem C10_subunit_capacity_wrap_witness :
    (0 < 2 ∧ strlen [65] < SIZE_MOD - 1) ∧
    (efichar_bound 0 = SIZE_MOD - 1 ∧
      (efichar_from_char [65] 0).2 = strlen [65] ∧
      (efichar_from_char [65] 0).1 = List.take (strlen [65]) [65] ++ [0] ∧
      0 < 2 * (efichar_from_char [65] 0).1.length) :=
  ⟨⟨by decide, by decide⟩, C10_subunit_capacity_wrap [65] 0 (by decide) (by decide)⟩

/-- Claim C9: encoding any string into a buffer sized by
efi_char16_bufsz yields exactly `strlen` units, so the two post-copy
length checks of the notifier always pass: no run of the notifier takes
an encode-mismatch branch. -/
theorem C9_checks_unreachable (s : List Nat) (what : Nat) (env : Env)
    (h : s.length < 2 ^ 62) :
    (efichar_from_char s (efi_char16_bufsz s)).2 = strlen s ∧
    (efibc_reboot_notifier_call what (some s) env).encodeFailures = 0 := by
  have hk : (efichar_from_char s (efi_char16_bufsz s)).2 = strlen s := by
    rw [encode_exact s (strlen_succ_small s h)]
  exact ⟨hk, notifier_encodeFailures_zero what s env hk⟩

/-- Witness for C9 at the command "x" on a successful SYS_RESTART run. -/
theorem C9_checks_unreachable_witness :
    ([120] : List Nat).length < 2 ^ 62 ∧
    ((efichar_from_char [120] (efi_char16_bufsz [120])).2 = strlen [120] ∧
      (efibc_reboot_notifier_call SYS_RESTART (some [120])
        ⟨true, true, EFI_SUCCESS⟩).encodeFailures = 0) :=
  ⟨by decide, C9_checks_unreachable [120] SYS_RESTART ⟨true, true, EFI_SUCCESS⟩ (by decide)⟩

/-- Claim C7 is false on the code: no fixed command string, embedded
NUL byte or not, makes the command length check fail, because strlen,
efi_char16_bufsz and the copy loop all stop at the same first NUL. -/
theorem C7_counterexample :
    ¬ ∃ cmd : List Nat, cmd.length < 2 ^ 62 ∧ 0 ∈ cmd ∧
      (efichar_from_char cmd (efi_char16_bufsz cmd)).2 ≠ strlen cmd := by
  rintro ⟨cmd, hlen, -, hne⟩
  exact hne (by rw [encode_exact cmd (strlen_succ_small cmd hlen)])

/-- Claim C7 amended: for every command string with an embedded NUL
byte, the post-copy check passes (units written = strlen) and the
notifier never aborts on the command-encoding check; the mismatch
branch is reachable only under concurrent mutation of the string, not
through embedded NULs. -/
theorem C7_amended_embedded_nul (cmd : List Nat) (what : Nat) (env : Env)
    (hlen : cmd.length < 2 ^ 62) (hnul : 0 ∈ cmd) :
    (efichar_from_char cmd (efi_char16_bufsz cmd)).2 = strlen cmd ∧
    (efibc_reboot_notifier_call what (some cmd) env).encodeFailures = 0 := by
  have hk : (efichar_from_char cmd (efi_char16_bufsz cmd)).2 = strlen cmd := by
    rw [encode_exact cmd (strlen_succ_small cmd hlen)]
  exact ⟨hk, notifier_encodeFailures_zero what cmd env hk⟩

/-- Witness for the amended C7 at the command bytes "a\0b". -/
theorem C7_amended_embedded_nul_witness :
    (([97, 0, 98] : List Nat).length < 2 ^ 62 ∧ 0 ∈ ([97, 0, 98] : List Nat)) ∧
    ((efichar_from_char [97, 0, 98] (efi_char16_bufsz [97, 0, 98])).2 = strlen [97, 0, 98] ∧
      (efibc_reboot_notifier_call SYS_RESTART (some [97, 0, 98])
        ⟨true, true, EFI_SUCCESS⟩).encodeFailures = 0) :=
  ⟨⟨by decide, by decide⟩,
    C7_amended_embedded_nul [97, 0, 98] SYS_RESTART ⟨true, true, EFI_SUCCESS⟩
      (by decide) (by decide)⟩


/-- The bytes of the payload "reboot-to-recovery" (18 characters). -/
def REBOOT_TO_RECOVERY : List Nat :=
  (String.toList "reboot-to-recovery").map Char.toNat

/-- Claim C2 as stated is false: for the payload "reboot-to-recovery"
the data size handed to set_variable is (18+1)*2 = 38 bytes — strlen
of the payload is 18, not 19 — so it differs from the claimed
(19+1)*2 = 40 bytes. -/
theorem C2_counterexample :
    (efibc_reboot_notifier_call SYS_RESTART (some REBOOT_TO_RECOVERY)
        ⟨true, true, EFI_SUCCESS⟩).setVarCalls.map SetVarCall.dataSize = [38] ∧
    (38 : Nat) ≠ (19 + 1) * 2 := by decide

/-- Claim C2 amended: on a SYS_RESTART event with payload
"reboot-to-recovery" and a succeeding firmware service, set_variable is
invoked exactly once, with a wide name decoding back to
"LoaderEntryOneShot", wide data decoding back to "reboot-to-recovery",
the attribute mask non-volatile | boot-service | runtime, and a data
size of (18+1)*sizeof(efi_char16_t) bytes; the notifier reports
NOTIFY_OK. -/
theorem C2_amended_success_scenario :
    (efibc_reboot_notifier_call SYS_RESTART (some REBOOT_TO_RECOVERY)
        ⟨true, true, EFI_SUCCESS⟩).ret = NOTIFY_OK ∧
    (efibc_reboot_notifier_call SYS_RESTART (some REBOOT_TO_RECOVERY)
        ⟨true, true, EFI_SUCCESS⟩).setVarCalls.map
        (fun c => (efi_char16_decode c.name, efi_char16_decode c.data, c.attributes, c.dataSize))
      = [(LOADER_ENTRY_ONE_SHOT, REBOOT_TO_RECOVERY,
          Nat.lor (Nat.lor EFI_VARIABLE_NON_VOLATILE EFI_VARIABLE_BOOTSERVICE_ACCESS)
            EFI_VARIABLE_RUNTIME_ACCESS,
          (18 + 1) * 2)] := by decide

/-- Claim C3 as stated is false: on a SYS_RESTART event with an empty
(non-null) payload the notifier does allocate (two kzalloc calls), does
invoke set_variable, and reports NOTIFY_OK — the code filters only a
null payload, not an empty one. -/
theorem C3_counterexample :
    (efibc_reboot_notifier_call SYS_RESTART (some []) ⟨true, true, EFI_SUCCESS⟩).allocAttempts
        = 2 ∧
    (efibc_reboot_notifier_call SYS_RESTART (some [])
        ⟨true, true, EFI_SUCCESS⟩).setVarCalls.length = 1 ∧
    (efibc_reboot_notifier_call SYS_RESTART (some []) ⟨true, true, EFI_SUCCESS⟩).ret
        = NOTIFY_OK ∧
    NOTIFY_OK ≠ NOTIFY_DONE := by decide

/-- Claim C3 amended: a notification whose kind is not SYS_RESTART or
whose payload is null performs no allocation, never calls the firmware
service, and reports NOTIFY_DONE (an empty but non-null payload is not
filtered). -/
theorem C3_amended_filter (what : Nat) (data : Option (List Nat)) (env : Env)
    (h : what ≠ SYS_RESTART ∨ data = none) :
    (efibc_reboot_notifier_call what data env).allocAttempts = 0 ∧
    (efibc_reboot_notifier_call what data env).setVarCalls = [] ∧
    (efibc_reboot_notifier_call what data env).ret = NOTIFY_DONE := by
  rw [notifier_eq_filter what data env h]
  exact ⟨rfl, rfl, rfl⟩

/-- Witness for the amended C3 at a SYS_HALT event with a live payload. -/
theorem C3_amended_filter_witness :
    ((2 : Nat) ≠ SYS_RESTART ∨ (some [65] : Option (List Nat)) = none) ∧
    ((efibc_reboot_notifier_call 2 (some [65]) ⟨true, true, EFI_SUCCESS⟩).allocAttempts = 0 ∧
      (efibc_reboot_notifier_call 2 (some [65]) ⟨true, true, EFI_SUCCESS⟩).setVarCalls = [] ∧
      (efibc_reboot_notifier_call 2 (some [65]) ⟨true, true, EFI_SUCCESS⟩).ret = NOTIFY_DONE) :=
  ⟨Or.inl (by decide),
    C3_amended_filter 2 (some [65]) ⟨true, true, EFI_SUCCESS⟩ (Or.inl (by decide))⟩

/-- Claim C5: the notifier returns NOTIFY_OK exactly when the event is
SYS_RESTART with a non-null payload, both allocations succeed, both
encode length checks pass, and set_variable returns EFI_SUCCESS; on
every other path it returns NOTIFY_DONE, never any other value. -/
theorem C5_ret_characterization (what : Nat) (data : Option (List Nat)) (env : Env) :
    ((efibc_reboot_notifier_call what data env).ret = NOTIFY_OK ↔
      what = SYS_RESTART ∧ ∃ cmd, data = some cmd ∧
        env.nameAllocOk = true ∧ env.cmdAllocOk = true ∧
        (efichar_from_char LOADER_ENTRY_ONE_SHOT
            (efi_char16_bufsz LOADER_ENTRY_ONE_SHOT)).2 = strlen LOADER_ENTRY_ONE_SHOT ∧
        (efichar_from_char cmd (efi_char16_bufsz cmd)).2 = strlen cmd ∧
        env.setVarStatus = EFI_SUCCESS) ∧
    ((efibc_reboot_notifier_call what data env).ret = NOTIFY_OK ∨
      (efibc_reboot_notifier_call what data env).ret = NOTIFY_DONE) := by
  by_cases hw : what = SYS_RESTART
  · cases data with
    | none =>
      rw [notifier_eq_filter what none env (Or.inr rfl)]
      refine ⟨⟨fun h0 => ?_, ?_⟩, Or.inr rfl⟩
      · simp [NOTIFY_DONE, NOTIFY_OK] at h0
      · rintro ⟨-, cmd, hcmd, -⟩
        exact Option.noConfusion hcmd
    | some cmd =>
      cases hn : env.nameAllocOk
      · rw [notifier_eq_nameAllocFail what cmd env hw hn]
        refine ⟨⟨fun h0 => ?_, ?_⟩, Or.inr rfl⟩
        · simp [NOTIFY_DONE, NOTIFY_OK] at h0
        · rintro ⟨-, cmd2, -, hn2, -⟩
          exact Bool.noConfusion hn2
      · cases hc : env.cmdAllocOk
        · rw [notifier_eq_cmdAllocFail what cmd env hw hn hc]
          refine ⟨⟨fun h0 => ?_, ?_⟩, Or.inr rfl⟩
          · simp [NOTIFY_DONE, NOTIFY_OK] at h0
          · rintro ⟨-, cmd2, -, -, hc2, -⟩
            exact Bool.noConfusion hc2
        · by_cases hk : (efichar_from_char cmd (efi_char16_bufsz cmd)).2 = strlen cmd
          · by_cases hs : env.setVarStatus = EFI_SUCCESS
            · rw [notifier_eq_success what cmd env hw hn hc hk hs]
              exact ⟨⟨fun _ => ⟨hw, cmd, rfl, rfl, rfl, nameCheckOk, hk, hs⟩, fun _ => rfl⟩,
                Or.inl rfl⟩
            · rw [notifier_eq_setVarFail what cmd env hw hn hc hk hs]
              refine ⟨⟨fun h0 => ?_, ?_⟩, Or.inr rfl⟩
              · simp [NOTIFY_DONE, NOTIFY_OK] at h0
              · rintro ⟨-, cmd2, -, -, -, -, -, hs2⟩
                exact (hs hs2).elim
          · rw [notifier_eq_cmdCheckFail what cmd env hw hn hc hk]
            refine ⟨⟨fun h0 => ?_, ?_⟩, Or.inr rfl⟩
            · simp [NOTIFY_DONE, NOTIFY_OK] at h0
            · rintro ⟨-, cmd2, hcmd, -, -, -, hk2, -⟩
              injection hcmd with h2
              subst h2
              exact (hk hk2).elim
  · rw [notifier_eq_filter what data env (Or.inl hw)]
    refine ⟨⟨fun h0 => ?_, fun hr => absurd hr.1 hw⟩, Or.inr rfl⟩
    simp [NOTIFY_DONE, NOTIFY_OK] at h0

/-- Claim C6: on every exit path the kfree calls are exactly the
successfully allocated buffers, each freed once, command buffer first,
then name buffer; the successful allocations are one of the three
prefixes of [name, cmd]. -/
theorem C6_no_leak (what : Nat) (data : Option (List Nat)) (env : Env) :
    (efibc_reboot_notifier_call what data env).frees =
      ((if Buf.cmd ∈ (efibc_reboot_notifier_call what data env).allocs
          then [Buf.cmd] else []) ++
        (if Buf.name ∈ (efibc_reboot_notifier_call what data env).allocs
          then [Buf.name] else [])) ∧
    ((efibc_reboot_notifier_call what data env).allocs = [] ∨
      (efibc_reboot_notifier_call what data env).allocs = [Buf.name] ∨
      (efibc_reboot_notifier_call what data env).allocs = [Buf.name, Buf.cmd]) := by
  by_cases hw : what = SYS_RESTART
  · cases data with
    | none =>
      rw [notifier_eq_filter what none env (Or.inr rfl)]
      exact ⟨by decide, Or.inl rfl⟩
    | some cmd =>
      cases hn : env.nameAllocOk
      · rw [notifier_eq_nameAllocFail what cmd env hw hn]
        exact ⟨by decide, Or.inl rfl⟩
      · cases hc : env.cmdAllocOk
        · rw [notifier_eq_cmdAllocFail what cmd env hw hn hc]
          exact ⟨by decide, Or.inr (Or.inl rfl)⟩
        · by_cases hk : (efichar_from_char cmd (efi_char16_bufsz cmd)).2 = strlen cmd
          · by_cases hs : env.setVarStatus = EFI_SUCCESS
            · rw [notifier_eq_success what cmd env hw hn hc hk hs]
              refine ⟨?_, Or.inr (Or.inr rfl)⟩
              show ([Buf.cmd, Buf.name] : List Buf) =
                (if Buf.cmd ∈ ([Buf.name, Buf.cmd] : List Buf) then [Buf.cmd] else []) ++
                  (if Buf.name ∈ ([Buf.name, Buf.cmd] : List Buf) then [Buf.name] else [])
              decide
            · rw [notifier_eq_setVarFail what cmd env hw hn hc hk hs]
              refine ⟨?_, Or.inr (Or.inr rfl)⟩
              show ([Buf.cmd, Buf.name] : List Buf) =
                (if Buf.cmd ∈ ([Buf.name, Buf.cmd] : List Buf) then [Buf.cmd] else []) ++
                  (if Buf.name ∈ ([Buf.name, Buf.cmd] : List Buf) then [Buf.name] else [])
              decide
          · rw [notifier_eq_cmdCheckFail what cmd env hw hn hc hk]
            exact ⟨by decide, Or.inr (Or.inr rfl)⟩
  · rw [notifier_eq_filter what data env (Or.inl hw)]
    exact ⟨by decide, Or.inl rfl⟩

/-- Claim C8: with EFI runtime services absent, efibc_init registers
no reboot notifier and returns 0; with them present it returns a
failure indication exactly when register_reboot_notifier itself fails. -/
theorem C8_startup_registration (r : Int) :
    (efibc_init false r).registered = false ∧
    (efibc_init false r).ret = 0 ∧
    ((efibc_init true r).ret ≠ 0 ↔ r ≠ 0) := by
  refine ⟨rfl, rfl, ?_⟩
  by_cases hr : r = 0 <;> simp [efibc_init, hr]

end Efibc
